import Mathlib

/-!
Shallow embedding of src/LambdaDashboard.py (LambdaEdge fault-event dashboard).

Modelling conventions:
* Python scalar values that flow through the DynamoDB items are modelled by
  the inductive type PyVal: None, int, float, Decimal and str.  Python floats
  and Decimals are carried as exact rationals; the one expression whose
  float ROUNDING is observable - the completeness percentage of line 107 -
  is modelled with explicit binary64 correct rounding (fl below).  The
  normalizer and charts only move the other numbers around unchanged.
* A DynamoDB item is a record of optional fields (absent key = none); the
  nested payload mapping likewise.  item.get returns None for an absent key,
  and item.get with a default returns the default only when the key is absent.
* The Python `or` between two lookups keeps the first operand when it is
  truthy and otherwise yields the second (Python truthiness, not presence).
* int(...) and float(...) are modelled as partial functions returning Option;
  an exception inside the per-item try block makes the normalizer drop the
  item (the `except: continue`), which is filterMap returning none.
* pandas timestamps are kept as epoch seconds (an Int); pd.to_datetime with
  unit s is order- and bucket-isomorphic to the integer seconds.
-/

inductive PyVal where
  | pyNone : PyVal
  | pyInt (n : ℤ) : PyVal
  | pyFloat (q : ℚ) : PyVal
  | pyDec (q : ℚ) : PyVal
  | pyStr (s : String) : PyVal
deriving DecidableEq, Repr

/-- Python truthiness: None, numeric zero and the empty string are falsy. -/
def truthy : PyVal → Bool
  | .pyNone => false
  | .pyInt n => n ≠ 0
  | .pyFloat q => q ≠ 0
  | .pyDec q => q ≠ 0
  | .pyStr s => s.length ≠ 0

/-- Python a or b: a when a is truthy, b otherwise. -/
def pyOr (a b : PyVal) : PyVal := if truthy a then a else b

/-- dict.get k: None when the key is absent. -/
def dictGet (o : Option PyVal) : PyVal := o.getD .pyNone

/-- dict.get k default: the default only when the key is absent. -/
def dictGetD (o : Option PyVal) (d : PyVal) : PyVal := o.getD d

/-- Numeric value of a list of decimal digit characters. -/
def digitsToNat (cs : List Char) : ℕ :=
  cs.foldl (fun n c => 10 * n + (c.toNat - 48)) 0

/-- str.isdigit restricted to ASCII: nonempty and all decimal digits. -/
def pyIsDigit (s : String) : Bool :=
  s.length ≠ 0 && s.toList.all Char.isDigit

/--
safe_cast from src/LambdaDashboard.py lines 40-45: a Decimal becomes a
float, a digit-only string becomes an int, anything else is returned as is.
-/
def safe_cast : PyVal → PyVal
  | .pyDec q => .pyFloat q
  | .pyStr s => if pyIsDigit s then .pyInt (digitsToNat s.toList) else .pyStr s
  | v => v

/-- Truncation toward zero, the behaviour of Python int() on a number. -/
def truncRat (q : ℚ) : ℤ := if 0 ≤ q then ⌊q⌋ else ⌈q⌉

/-- Optional sign followed by the rest of the characters. -/
def stripSign : List Char → Bool × List Char
  | '-' :: rest => (true, rest)
  | '+' :: rest => (false, rest)
  | cs => (false, cs)

/-- Python int(str): optional sign then a nonempty run of digits. -/
def parseIntLit (s : String) : Option ℤ :=
  let (neg, cs) := stripSign s.toList
  if cs.length ≠ 0 && cs.all Char.isDigit then
    some (if neg then -(digitsToNat cs : ℤ) else (digitsToNat cs : ℤ))
  else none

/--
Python float(str) on the plain decimal literals this pipeline can meet:
optional sign, integer digits, optionally a dot and fraction digits, with at
least one digit overall (exponent, inf and nan literals are not modelled).
-/
def parseFloatLit (s : String) : Option ℚ :=
  let (neg, cs) := stripSign s.toList
  let ip := cs.takeWhile Char.isDigit
  let rest := cs.dropWhile Char.isDigit
  let mk : ℚ → Option ℚ := fun q => some (if neg then -q else q)
  match rest with
  | [] => if ip.length ≠ 0 then mk (digitsToNat ip) else none
  | '.' :: frac =>
    if frac.all Char.isDigit && (ip.length ≠ 0 || frac.length ≠ 0) then
      mk ((digitsToNat ip : ℚ) + (digitsToNat frac : ℚ) / (10 ^ frac.length))
    else none
  | _ => none

/-- Python int(v): fails (raises, hence none) on None and non-numeric strings. -/
def pyIntCast : PyVal → Option ℤ
  | .pyNone => none
  | .pyInt n => some n
  | .pyFloat q => some (truncRat q)
  | .pyDec q => some (truncRat q)
  | .pyStr s => parseIntLit s

/-- Python float(v): fails (raises, hence none) on None and non-numeric strings. -/
def pyFloatCast : PyVal → Option ℚ
  | .pyNone => none
  | .pyInt n => some (n : ℚ)
  | .pyFloat q => some q
  | .pyDec q => some q
  | .pyStr s => parseFloatLit s

/-- The nested payload mapping of a raw DynamoDB item (absent keys = none). -/
structure PayloadMap where
  device_id : Option PyVal
  timestamp : Option PyVal
  temperature : Option PyVal
  vibration : Option PyVal
  status : Option PyVal
deriving DecidableEq, Repr

/-- A raw DynamoDB item: top-level fields plus the payload mapping
(item.get with default empty dict makes an absent payload the empty map). -/
structure RawItem where
  payload : PayloadMap
  device_id : Option PyVal
  timestamp : Option PyVal
  temperature : Option PyVal
  vibration : Option PyVal
  status : Option PyVal
deriving DecidableEq, Repr

/-- The empty payload mapping. -/
def emptyPayload : PayloadMap := ⟨none, none, none, none, none⟩

/-- payload.get(f) or item.get(f): the fallback chain of lines 57-60. -/
def resolvePayloadFirst (p t : Option PyVal) : PyVal :=
  pyOr (dictGet p) (dictGet t)

/-- The resolved raw timestamp value of an item (line 58, before casts). -/
def resolveTs (item : RawItem) : PyVal :=
  resolvePayloadFirst item.payload.timestamp item.timestamp

/-- The resolved raw temperature value of an item (line 59, before casts). -/
def resolveTemp (item : RawItem) : PyVal :=
  resolvePayloadFirst item.payload.temperature item.temperature

/-- The resolved raw vibration value of an item (line 60, before casts). -/
def resolveVib (item : RawItem) : PyVal :=
  resolvePayloadFirst item.payload.vibration item.vibration

/-- A normalized telemetry record as built on lines 56-62. -/
structure TelemetryRecord where
  device_id : PyVal
  timestamp : ℤ
  temperature : ℚ
  vibration : ℚ
  status : PyVal
deriving DecidableEq, Repr

/--
One iteration of the normalization loop (lines 53-64): resolve each field
payload-first, cast timestamp with int(safe_cast(..)) and the two analog
fields with float(safe_cast(..)); any cast failure raises and the bare
except drops the whole item (none).  Status falls back to
item.get(status, UNKNOWN).
-/
def normalizeItem (item : RawItem) : Option TelemetryRecord :=
  match pyIntCast (safe_cast (resolveTs item)),
        pyFloatCast (safe_cast (resolveTemp item)),
        pyFloatCast (safe_cast (resolveVib item)) with
  | some ts, some temp, some vib =>
    some { device_id := resolvePayloadFirst item.payload.device_id item.device_id
           timestamp := ts
           temperature := temp
           vibration := vib
           status := pyOr (dictGet item.payload.status)
                          (dictGetD item.status (.pyStr "UNKNOWN")) }
  | _, _, _ => none

/-- fetch_fault_data (lines 48-65) on a scanned list of items: the loop
appends the successfully normalized records and skips the failing items. -/
def fetch_fault_data (items : List RawItem) : List TelemetryRecord :=
  items.filterMap normalizeItem

/--
The time-window filter of lines 78-79: cutoff = now - window minutes, keep
the rows with timestamp >= cutoff.  Times are epoch seconds, the window w is
in minutes.
-/
def timeWindowFilter (records : List TelemetryRecord) (w : ℕ) (now : ℤ) :
    List TelemetryRecord :=
  records.filter (fun r => decide (now - (w : ℤ) * 60 ≤ r.timestamp))

/-- Rounding half to even at integer precision, the tie rule of Python round. -/
def roundHalfEven (q : ℚ) : ℤ :=
  if q - ⌊q⌋ < 1 / 2 then ⌊q⌋
  else if 1 / 2 < q - ⌊q⌋ then ⌊q⌋ + 1
  else if 2 ∣ ⌊q⌋ then ⌊q⌋ else ⌊q⌋ + 1

/--
CPython round(x, 1) on a float x: the value of x is an exact (dyadic)
rational, and round picks the closest multiple of 1/10 of that exact value,
ties to even (dtoa-based, correctly rounded).  The f-string then displays
that decimal - repr of the rounded float is its shortest round-trip
decimal - so the observable result is exactly this one-decimal rational and
the final decimal-to-binary conversion inside round is not modelled.
-/
def pyRound1 (q : ℚ) : ℚ := (roundHalfEven (10 * q) : ℚ) / 10

/--
Correct rounding of an exact rational to the nearest IEEE-754 binary64
value (round to nearest, ties to even, 53-bit significand), the rounding
every CPython float arithmetic operation performs on its exact result.
The double's value is itself an exact dyadic rational, so the model stays
inside the rationals.  Overflow and subnormals are not modelled: every
value reaching this function in the dashboard (a completeness ratio and
its hundredfold) lies far inside the normal range.
-/
def fl (q : ℚ) : ℚ :=
  if q = 0 then 0
  else
    (if q < 0 then -1 else 1) *
      ((roundHalfEven (|q| / 2 ^ (Int.log 2 |q| - 52)) : ℚ) * 2 ^ (Int.log 2 |q| - 52))

/--
completion_rate from lines 96 and 107: expected_count = time_window, and
round((actual_count / expected_count) * 100, 1) evaluated in CPython
floats: the int/int true division is correctly rounded to binary64 (fl),
as is the subsequent multiplication by 100 (100 converts exactly), and
round then yields the closest one-decimal value of the resulting double
(pyRound1).  Python raises ZeroDivisionError when expected_count is 0,
modelled as none; the slider on line 24 merely bounds time_window to
5..240.
-/
def completion_rate (actual_count time_window : ℕ) : Option ℚ :=
  if time_window = 0 then none
  else some (pyRound1 (fl (fl ((actual_count : ℚ) / (time_window : ℚ)) * 100)))

/-- status == FAULT, the row predicate of line 164. -/
def isFault (r : TelemetryRecord) : Bool := r.status == .pyStr "FAULT"

/-- timestamp.dt.floor(15min) in epoch seconds: floor division to the
enclosing 900-second boundary (line 166). -/
def bucketOf (r : TelemetryRecord) : ℤ := Int.fdiv r.timestamp 900 * 900

/--
The Fault Trend branch (lines 163-168): keep the FAULT rows, key each by
its 15-minute bucket, and count rows per bucket; pandas groupby sorts the
group keys ascending, modelled by insertion sort over the distinct keys.
-/
def faultTrend (records : List TelemetryRecord) : List (ℤ × ℕ) :=
  let faults := records.filter isFault
  let keys := List.insertionSort (· ≤ ·) (faults.map bucketOf).dedup
  keys.map (fun k => (k, faults.countP (fun r => bucketOf r == k)))

/-- The JSON parse outcome of a response body: a JSON object (an association
list of its keys) or an unparseable body with the decoder's message. -/
inductive JsonBody where
  | valid (obj : List (String × PyVal)) : JsonBody
  | invalid (msg : String) : JsonBody
deriving DecidableEq, Repr

/-- What the HTTP transport produced for the POST of line 186: a transport
failure (connection refused, timeout, ...) or a status plus body. -/
inductive HttpOutcome where
  | transportError (msg : String) : HttpOutcome
  | response (status : ℕ) (body : JsonBody) : HttpOutcome
deriving DecidableEq, Repr

/-- The exceptions that can escape the try block of get_prediction. -/
inductive PyExc where
  | requestException (msg : String) : PyExc
  | jsonDecodeError (msg : String) : PyExc
deriving DecidableEq, Repr

/--
isinstance(e, requests.exceptions.RequestException): transport errors and
HTTPError are RequestException; response.json() raises
requests.exceptions.JSONDecodeError, which since requests 2.27 is also a
subclass of RequestException (via InvalidJSONError).
-/
def isRequestException : PyExc → Bool
  | .requestException _ => true
  | .jsonDecodeError _ => true

/-- isinstance(e, ValueError): requests JSONDecodeError also subclasses
json.JSONDecodeError, hence ValueError; RequestException does not. -/
def isValueError : PyExc → Bool
  | .requestException _ => false
  | .jsonDecodeError _ => true

/-- The message carried by an exception. -/
def excMsg : PyExc → String
  | .requestException m => m
  | .jsonDecodeError m => m

/-- The value a get_prediction call hands to the UI: the parsed response
object, or an error dict with the message and optionally the raw body. -/
inductive PredResult where
  | success (obj : List (String × PyVal)) : PredResult
  | failure (errMsg : String) (raw : Option (List (String × PyVal))) : PredResult
deriving DecidableEq, Repr

/--
The try block of get_prediction (lines 179-193): the POST may raise a
RequestException; raise_for_status raises HTTPError (a RequestException) on
a 4xx/5xx status; response.json() raises on an unparseable body; otherwise
the prediction key is checked and a dict is returned without raising.
-/
def getPredictionTry (outcome : HttpOutcome) :
    Except PyExc PredResult :=
  match outcome with
  | .transportError m => .error (.requestException m)
  | .response status body =>
    if 400 ≤ status then
      .error (.requestException ("status " ++ toString status))
    else
      match body with
      | .invalid m => .error (.jsonDecodeError m)
      | .valid obj =>
        if (obj.map Prod.fst).contains "prediction" then
          .ok (.success obj)
        else
          .ok (.failure "Missing 'prediction' key in Lambda response" (some obj))

/--
get_prediction (lines 178-199): run the try block; an escaping exception is
matched against the handlers in source order - RequestException first
(tagged HTTP error), then ValueError (tagged JSON decoding failed).  An
exception matching neither handler would propagate, modelled as none.
-/
def get_prediction (outcome : HttpOutcome) : Option PredResult :=
  match getPredictionTry outcome with
  | .ok r => some r
  | .error e =>
    if isRequestException e then
      some (.failure ("HTTP error: " ++ excMsg e) none)
    else if isValueError e then
      some (.failure ("JSON decoding failed: " ++ excMsg e) none)
    else none

/-- df[df.device_id == selected_device].iloc[-1] from line 207: the last
row, in frame order, among the device's rows of the time-filtered frame. -/
def selectedData (df : List TelemetryRecord) (dev : PyVal) :
    Option TelemetryRecord :=
  (df.filter (fun r => r.device_id == dev)).getLast?

/-- The telemetry pair (temperature, vibration) passed to get_prediction on
lines 210-214. -/
def inferenceInput (df : List TelemetryRecord) (dev : PyVal) :
    Option (ℚ × ℚ) :=
  (selectedData df dev).map (fun r => (r.temperature, r.vibration))
def c1rec : TelemetryRecord := ⟨.pyStr "A", 960, 1, 1, .pyStr "OK"⟩

/-- C1: a record of the normalized set appears in the time-filtered frame iff
its timestamp is at least now minus w minutes, equivalently iff its age
now - timestamp is at most w*60 seconds. -/
theorem timeWindowFilter_mem_iff (recs : List TelemetryRecord) (w : ℕ) (now : ℤ)
    (r : TelemetryRecord) (hr : r ∈ recs) :
    (r ∈ timeWindowFilter recs w now ↔ now - (w : ℤ) * 60 ≤ r.timestamp) ∧
    (r ∈ timeWindowFilter recs w now ↔ now - r.timestamp ≤ (w : ℤ) * 60) := by
  constructor
  · simp [timeWindowFilter, List.mem_filter, hr]
  · simp [timeWindowFilter, List.mem_filter, hr]
    omega

/-- C1 witness: a record 40 seconds old is retained by a 1-minute window. -/
theorem timeWindowFilter_mem_iff_witness :
    (c1rec ∈ timeWindowFilter [c1rec] 1 1000 ↔ 1000 - (1 : ℤ) * 60 ≤ c1rec.timestamp) ∧
    (c1rec ∈ timeWindowFilter [c1rec] 1 1000 ↔ 1000 - c1rec.timestamp ≤ (1 : ℤ) * 60) :=
  timeWindowFilter_mem_iff [c1rec] 1 1000 c1rec (by decide)

lemma roundHalfEven_low (q : ℚ) (n : ℤ) (h1 : (n : ℚ) ≤ q) (h2 : q < (n : ℚ) + 1/2) :
    roundHalfEven q = n := by
  have hf : ⌊q⌋ = n := by
    rw [Int.floor_eq_iff]
    constructor
    · exact h1
    · linarith
  rw [roundHalfEven, hf, if_pos (by linarith)]

lemma roundHalfEven_tie (q : ℚ) (n : ℤ) (h : q = (n : ℚ) + 1/2) :
    roundHalfEven q = if 2 ∣ n then n else n + 1 := by
  have hf : ⌊q⌋ = n := by
    rw [Int.floor_eq_iff]
    constructor
    · linarith
    · linarith
  rw [roundHalfEven, hf, if_neg (by linarith), if_neg (by linarith)]

lemma fl_pos_eval (q : ℚ) (e : ℤ) (h1 : (2:ℚ) ^ e ≤ q) (h2 : q < (2:ℚ) ^ (e + 1)) :
    fl q = (roundHalfEven (q / 2 ^ (e - 52)) : ℚ) * 2 ^ (e - 52) := by
  have hq : 0 < q := lt_of_lt_of_le (zpow_pos (by norm_num) e) h1
  have hlog : Int.log 2 q = e := by
    have ha : e ≤ Int.log 2 q := by
      rw [← Int.zpow_le_iff_le_log one_lt_two hq]
      exact_mod_cast h1
    have hb : Int.log 2 q < e + 1 := by
      rw [← Int.lt_zpow_iff_log_lt one_lt_two hq]
      exact_mod_cast h2
    omega
  rw [fl, if_neg (ne_of_gt hq), if_neg (not_lt.mpr hq.le), abs_of_pos hq, hlog, one_mul]

lemma fl_23_80 : fl (23/80) = 2589569785738035 / 9007199254740992 := by
  rw [fl_pos_eval (23/80) (-2) (by norm_num) (by norm_num)]
  rw [show ((23:ℚ)/80) / 2 ^ ((-2 : ℤ) - 52) = 25895697857380352/5 from by
    rw [show ((-2 : ℤ) - 52) = -54 from rfl, zpow_neg]
    norm_num]
  rw [roundHalfEven_low _ 5179139571476070 (by norm_num) (by norm_num)]
  rw [show ((-2 : ℤ) - 52) = -54 from rfl, zpow_neg]
  norm_num

lemma fl_23_80_mul100 : fl (2589569785738035 / 9007199254740992 * 100)
    = 8092405580431359 / 281474976710656 := by
  rw [show (2589569785738035 / 9007199254740992 * 100 : ℚ)
      = 64739244643450875/2251799813685248 from by norm_num]
  rw [fl_pos_eval _ 4 (by norm_num) (by norm_num)]
  rw [show ((64739244643450875:ℚ)/2251799813685248) / 2 ^ ((4 : ℤ) - 52)
      = 64739244643450875/8 from by
    rw [show ((4 : ℤ) - 52) = -48 from rfl, zpow_neg]
    norm_num]
  rw [roundHalfEven_low _ 8092405580431359 (by norm_num) (by norm_num)]
  rw [show ((4 : ℤ) - 52) = -48 from rfl, zpow_neg]
  norm_num

lemma fl_three_quarters : fl (3/4) = 3/4 := by
  rw [fl_pos_eval (3/4) (-1) (by norm_num) (by norm_num)]
  rw [show ((3:ℚ)/4) / 2 ^ ((-1 : ℤ) - 52) = 6755399441055744 from by
    rw [show ((-1 : ℤ) - 52) = -53 from rfl, zpow_neg]
    norm_num]
  rw [roundHalfEven_low _ 6755399441055744 (by norm_num) (by norm_num)]
  rw [show ((-1 : ℤ) - 52) = -53 from rfl, zpow_neg]
  norm_num

lemma fl_seventy_five : fl 75 = 75 := by
  rw [fl_pos_eval 75 6 (by norm_num) (by norm_num)]
  rw [show ((75:ℚ)) / 2 ^ ((6 : ℤ) - 52) = 5277655813324800 from by
    rw [show ((6 : ℤ) - 52) = -46 from rfl, zpow_neg]
    norm_num]
  rw [roundHalfEven_low _ 5277655813324800 (by norm_num) (by norm_num)]
  rw [show ((6 : ℤ) - 52) = -46 from rfl, zpow_neg]
  norm_num

/-- C5 counterexample: at window 80 with 23 records the program displays
28.7 - fl(23/80) falls just below 0.2875 and the doubled rounding lands at
28.749999999999996, rounded down - while round(100*23/80, 1) is 28.8, so
the claimed equality fails at this reachable input. -/
theorem completion_rate_float_cex :
    completion_rate 23 80 = some (287/10) ∧
    pyRound1 (100 * (23 : ℚ) / 80) = 144/5 ∧
    ((287 : ℚ)/10) ≠ 144/5 := by
  refine ⟨?_, ?_, by norm_num⟩
  · simp only [completion_rate, if_neg (by norm_num : (80:ℕ) ≠ 0)]
    rw [show ((23:ℕ) : ℚ) / ((80:ℕ) : ℚ) = 23/80 from by norm_num, fl_23_80,
        fl_23_80_mul100, pyRound1]
    rw [show (10 * ((8092405580431359:ℚ) / 281474976710656) : ℚ)
        = 40462027902156795/140737488355328 from by norm_num]
    rw [roundHalfEven_low _ 287 (by norm_num) (by norm_num)]
    norm_num
  · rw [pyRound1, show (10 * (100 * (23:ℚ) / 80) : ℚ) = ((287:ℤ) : ℚ) + 1/2 from by
      norm_num]
    rw [roundHalfEven_tie _ 287 rfl]
    norm_num

/-- C5 amended: the reported completeness is round(.,1) of the binary64
evaluation of (actual/window)*100; whenever the division and the
multiplication round to nothing (both float operations exact) this equals
round(100*actual/window, 1), and at window 60 with 45 records both are
exact and the result is exactly 75.0. -/
theorem completion_rate_spec :
    (∀ a w : ℕ, 0 < w →
      fl ((a : ℚ) / (w : ℚ)) = (a : ℚ) / (w : ℚ) →
      fl (((a : ℚ) / (w : ℚ)) * 100) = ((a : ℚ) / (w : ℚ)) * 100 →
      completion_rate a w = some (pyRound1 (100 * (a : ℚ) / (w : ℚ)))) ∧
    completion_rate 45 60 = some 75 := by
  constructor
  · intro a w hw h1 h2
    have hw0 : w ≠ 0 := Nat.pos_iff_ne_zero.mp hw
    simp only [completion_rate, if_neg hw0]
    rw [h1, h2, show ((a : ℚ) / (w : ℚ)) * 100 = 100 * (a : ℚ) / (w : ℚ) from by ring]
  · simp only [completion_rate, if_neg (by norm_num : (60:ℕ) ≠ 0)]
    rw [show ((45:ℕ) : ℚ) / ((60:ℕ) : ℚ) = 3/4 from by norm_num, fl_three_quarters,
        show ((3:ℚ)/4) * 100 = 75 from by norm_num, fl_seventy_five, pyRound1]
    rw [show (10 * (75:ℚ)) = ((750:ℤ) : ℚ) from by norm_num]
    rw [roundHalfEven_low _ 750 (by norm_num) (by norm_num)]
    norm_num

/-- C5 amended witness: at window 60 with 45 records both float operations
are exact, and the completeness matches the round(100*actual/window, 1)
formula. -/
theorem completion_rate_spec_witness :
    completion_rate 45 60 = some (pyRound1 (100 * ((45:ℕ) : ℚ) / ((60:ℕ) : ℚ))) :=
  completion_rate_spec.1 45 60 (by norm_num)
    (by rw [show ((45:ℕ) : ℚ) / ((60:ℕ) : ℚ) = 3/4 from by norm_num]
        exact fl_three_quarters)
    (by rw [show ((45:ℕ) : ℚ) / ((60:ℕ) : ℚ) = 3/4 from by norm_num,
            show ((3:ℚ)/4) * 100 = 75 from by norm_num]
        exact fl_seventy_five)

/-- C9 evaluation: completion_rate performs the division unguarded, so a zero
window raises ZeroDivisionError (modelled none) for every actual count. -/
theorem completion_rate_zero_window (a : ℕ) : completion_rate a 0 = none := rfl
lemma faultTrend_keys (recs : List TelemetryRecord) :
    (faultTrend recs).map Prod.fst =
      List.insertionSort (· ≤ ·) ((recs.filter isFault).map bucketOf).dedup := by
  simp [faultTrend, List.map_map, Function.comp_def]

def c6recs : List TelemetryRecord :=
  [⟨.pyStr "A", 1000, 1, 1, .pyStr "FAULT"⟩,
   ⟨.pyStr "A", 1100, 1, 1, .pyStr "FAULT"⟩,
   ⟨.pyStr "A", 1800, 1, 1, .pyStr "FAULT"⟩]

/-- C6: the fault-trend branch selects exactly the FAULT rows, keys each by
floor(timestamp/900)*900, counts rows per key, and emits the keys strictly
ascending; FAULT timestamps 1000, 1100, 1800 give buckets (900,2),(1800,1). -/
theorem faultTrend_spec :
    (∀ recs : List TelemetryRecord, ((faultTrend recs).map Prod.fst).Sorted (· < ·)) ∧
    (∀ recs : List TelemetryRecord, ∀ k : ℤ, ∀ c : ℕ, (k, c) ∈ faultTrend recs →
      c = ((recs.filter isFault).filter (fun r => bucketOf r == k)).length) ∧
    (∀ recs : List TelemetryRecord, ∀ k : ℤ,
      k ∈ (faultTrend recs).map Prod.fst ↔
        ∃ r ∈ recs, isFault r = true ∧ bucketOf r = k) ∧
    faultTrend c6recs = [(900, 2), (1800, 1)] := by
  refine ⟨?_, ?_, ?_, by decide⟩
  · intro recs
    rw [faultTrend_keys]
    exact (List.sorted_insertionSort _ _).lt_of_le
      ((List.perm_insertionSort _ _).nodup_iff.mpr (List.nodup_dedup _))
  · intro recs k c h
    simp only [faultTrend, List.mem_map] at h
    obtain ⟨k', hk', hkc⟩ := h
    injection hkc with h1 h2
    subst h1
    subst h2
    exact (List.countP_eq_length_filter _ _)
  · intro recs k
    rw [faultTrend_keys]
    constructor
    · intro hk
      have hk2 : k ∈ ((recs.filter isFault).map bucketOf).dedup :=
        ((List.perm_insertionSort _ _).mem_iff).mp hk
      rw [List.mem_dedup] at hk2
      obtain ⟨r, hr, rfl⟩ := List.mem_map.mp hk2
      have hmem := List.mem_filter.mp hr
      exact ⟨r, hmem.1, hmem.2, rfl⟩
    · rintro ⟨r, hr, hf, rfl⟩
      apply ((List.perm_insertionSort _ _).mem_iff).mpr
      rw [List.mem_dedup]
      exact List.mem_map_of_mem _ (List.mem_filter.mpr ⟨hr, hf⟩)

/-- C6 witness: the bucket count of bucket 900 in the three-record window. -/
theorem faultTrend_spec_witness :
    2 = ((c6recs.filter isFault).filter (fun r => bucketOf r == 900)).length :=
  faultTrend_spec.2.1 c6recs 900 2 (by decide)

/-- C10: the bucket counts of the fault trend sum to the number of FAULT
rows of the window - each FAULT row lands in exactly one bucket. -/
theorem faultTrend_conservation (recs : List TelemetryRecord) :
    ((faultTrend recs).map Prod.snd).sum = (recs.filter isFault).length := by
  have hcnt : ∀ k : ℤ, (recs.filter isFault).countP (fun r => bucketOf r == k)
      = ((recs.filter isFault).map bucketOf).count k := by
    intro k
    simp [List.count, List.countP_map]
    rfl
  calc ((faultTrend recs).map Prod.snd).sum
      = ((List.insertionSort (· ≤ ·) ((recs.filter isFault).map bucketOf).dedup).map
          (fun k => ((recs.filter isFault).map bucketOf).count k)).sum := by
        simp only [faultTrend, List.map_map]
        congr 1
        exact List.map_congr_left (fun k _ => hcnt k)
    _ = (((recs.filter isFault).map bucketOf).dedup.map
          (fun k => ((recs.filter isFault).map bucketOf).count k)).sum :=
        (((List.perm_insertionSort _ _).map _)).sum_eq
    _ = ((recs.filter isFault).map bucketOf).length :=
        List.sum_map_count_dedup_eq_length _
    _ = (recs.filter isFault).length := by simp
lemma normalizeItem_eq_none_iff (item : RawItem) :
    normalizeItem item = none ↔
      pyIntCast (safe_cast (resolveTs item)) = none ∨
      pyFloatCast (safe_cast (resolveTemp item)) = none ∨
      pyFloatCast (safe_cast (resolveVib item)) = none := by
  unfold normalizeItem
  rcases h1 : pyIntCast (safe_cast (resolveTs item)) with _ | ts <;>
    rcases h2 : pyFloatCast (safe_cast (resolveTemp item)) with _ | temp <;>
      rcases h3 : pyFloatCast (safe_cast (resolveVib item)) with _ | vib <;>
        simp

lemma normalizeItem_some_fields (item : RawItem) (r : TelemetryRecord)
    (h : normalizeItem item = some r) :
    r.device_id = resolvePayloadFirst item.payload.device_id item.device_id ∧
    pyIntCast (safe_cast (resolveTs item)) = some r.timestamp ∧
    pyFloatCast (safe_cast (resolveTemp item)) = some r.temperature ∧
    pyFloatCast (safe_cast (resolveVib item)) = some r.vibration ∧
    r.status = pyOr (dictGet item.payload.status)
                    (dictGetD item.status (.pyStr "UNKNOWN")) := by
  unfold normalizeItem at h
  rcases h1 : pyIntCast (safe_cast (resolveTs item)) with _ | ts <;>
    rcases h2 : pyFloatCast (safe_cast (resolveTemp item)) with _ | temp <;>
      rcases h3 : pyFloatCast (safe_cast (resolveVib item)) with _ | vib <;>
        rw [h1, h2, h3] at h <;> simp at h
  obtain rfl := h.symm
  simp
def c2item : RawItem :=
  { payload := { device_id := some (.pyStr "A"), timestamp := some (.pyInt 0),
                 temperature := some (.pyFloat 1), vibration := some (.pyFloat 1),
                 status := some (.pyStr "OK") }
    device_id := none
    timestamp := some (.pyInt 5)
    temperature := none
    vibration := none
    status := none }

/-- C2 counterexample: the payload of c2item contains timestamp 0, yet the
normalized record carries the top-level timestamp 5 - the fallback chain
keys on Python truthiness, not on presence of the payload field. -/
theorem normalizeItem_payload_precedence_cex :
    c2item.payload.timestamp = some (.pyInt 0) ∧
    (normalizeItem c2item).map (fun r => r.timestamp) = some 5 ∧
    (5 : ℤ) ≠ 0 := by decide

/-- C2 amended: a payload field is used whenever its value is truthy; when
the payload field is absent or its value is falsy (None, 0, empty string)
the top-level lookup is used instead; every field of an emitted record is
built from this payload-first resolution. -/
theorem normalizeItem_payload_precedence :
    (∀ (p t : Option PyVal) (v : PyVal), p = some v → truthy v = true →
      resolvePayloadFirst p t = v) ∧
    (∀ p t : Option PyVal, truthy (dictGet p) = false →
      resolvePayloadFirst p t = dictGet t) ∧
    (∀ (item : RawItem) (r : TelemetryRecord), normalizeItem item = some r →
      r.device_id = resolvePayloadFirst item.payload.device_id item.device_id ∧
      pyIntCast (safe_cast (resolveTs item)) = some r.timestamp ∧
      pyFloatCast (safe_cast (resolveTemp item)) = some r.temperature ∧
      pyFloatCast (safe_cast (resolveVib item)) = some r.vibration ∧
      r.status = pyOr (dictGet item.payload.status)
                      (dictGetD item.status (.pyStr "UNKNOWN"))) := by
  refine ⟨?_, ?_, fun item r h => normalizeItem_some_fields item r h⟩
  · intro p t v hp hv
    subst hp
    simp [resolvePayloadFirst, pyOr, dictGet, hv]
  · intro p t hp
    simp [resolvePayloadFirst, pyOr, hp]

/-- C2 amended witness: a truthy payload value 7 wins over top-level 3; a
falsy payload value 0 loses to top-level 3. -/
theorem normalizeItem_payload_precedence_witness :
    resolvePayloadFirst (some (.pyInt 7)) (some (.pyInt 3)) = .pyInt 7 ∧
    resolvePayloadFirst (some (.pyInt 0)) (some (.pyInt 3)) = dictGet (some (.pyInt 3)) :=
  ⟨normalizeItem_payload_precedence.1 _ _ _ rfl (by decide),
   normalizeItem_payload_precedence.2.1 _ _ (by decide)⟩

def c4item : RawItem :=
  { payload := { device_id := some (.pyStr "A"), timestamp := some (.pyDec (-100)),
                 temperature := some (.pyDec 1), vibration := some (.pyDec 1),
                 status := some (.pyStr "FAULT") }
    device_id := none
    timestamp := none
    temperature := none
    vibration := none
    status := none }

/-- C4 counterexample: a Decimal timestamp of -100 passes safe_cast and
int() unchanged, so the normalizer emits a record with a negative timestamp;
nothing in fetch_fault_data checks non-negativity. -/
theorem normalizeItem_nonneg_cex :
    (normalizeItem c4item).map (fun r => r.timestamp) = some (-100) ∧
    ¬ (0 : ℤ) ≤ (-100 : ℤ) := by decide

/-- C4 amended: every emitted record's timestamp is the successful integer
coercion of its resolved raw timestamp (an integer, but negative when the
raw value is negative), and an item whose resolved timestamp, temperature
or vibration fails numeric coercion is discarded entirely, never emitted as
a partial or nulled record. -/
theorem normalizeItem_timestamp_int :
    (∀ (item : RawItem) (r : TelemetryRecord), normalizeItem item = some r →
      pyIntCast (safe_cast (resolveTs item)) = some r.timestamp) ∧
    (∀ item : RawItem,
      (pyIntCast (safe_cast (resolveTs item)) = none ∨
       pyFloatCast (safe_cast (resolveTemp item)) = none ∨
       pyFloatCast (safe_cast (resolveVib item)) = none) →
      normalizeItem item = none) :=
  ⟨fun item r h => (normalizeItem_some_fields item r h).2.1,
   fun item h => (normalizeItem_eq_none_iff item).mpr h⟩

/-- C4 amended witness: an item with no timestamp anywhere is dropped whole. -/
theorem normalizeItem_timestamp_int_witness :
    normalizeItem { payload := emptyPayload, device_id := some (.pyStr "B"),
                    timestamp := none, temperature := some (.pyFloat 1),
                    vibration := some (.pyFloat 1), status := none } = none :=
  normalizeItem_timestamp_int.2 _ (Or.inl (by decide))

/-- C7: an item is dropped by the normalizer exactly when the coercion of
its resolved timestamp, temperature or vibration fails (in particular when
the field is missing at both levels), and every sibling item that
normalizes successfully still reaches the output - no all-or-nothing
failure. -/
theorem fetch_fault_data_drop_isolated :
    (∀ item : RawItem, normalizeItem item = none ↔
      (pyIntCast (safe_cast (resolveTs item)) = none ∨
       pyFloatCast (safe_cast (resolveTemp item)) = none ∨
       pyFloatCast (safe_cast (resolveVib item)) = none)) ∧
    (∀ (items : List RawItem) (item : RawItem) (r : TelemetryRecord),
      item ∈ items → normalizeItem item = some r → r ∈ fetch_fault_data items) :=
  ⟨normalizeItem_eq_none_iff,
   fun _ item _ hi hr => List.mem_filterMap.mpr ⟨item, hi, hr⟩⟩

def c7good : RawItem :=
  { payload := emptyPayload, device_id := some (.pyStr "A"),
    timestamp := some (.pyInt 100), temperature := some (.pyDec 5),
    vibration := some (.pyFloat 1), status := some (.pyStr "OK") }

def c7bad : RawItem :=
  { payload := emptyPayload, device_id := some (.pyStr "B"),
    timestamp := some (.pyStr "oops"), temperature := some (.pyFloat 2),
    vibration := some (.pyFloat 2), status := some (.pyStr "OK") }

/-- C7 witness: next to a sibling whose timestamp fails int(), the valid
item's record still reaches the fetch_fault_data output. -/
theorem fetch_fault_data_drop_isolated_witness :
    (⟨.pyStr "A", 100, 5, 1, .pyStr "OK"⟩ : TelemetryRecord) ∈
      fetch_fault_data [c7bad, c7good] :=
  fetch_fault_data_drop_isolated.2 [c7bad, c7good] c7good _ (by decide) (by decide)
/-- C3 evaluation: a 2xx response whose body is not parseable as JSON is
reported with the HTTP-error tag, not the JSON tag: response.json() raises
requests JSONDecodeError, since requests 2.27 also a RequestException, and
the RequestException handler comes first in get_prediction. -/
theorem get_prediction_invalid_json_tag (m : String) :
    get_prediction (.response 200 (.invalid m)) =
      some (.failure ("HTTP error: " ++ m) none) := rfl

lemma getLast?_mem_list (l : List TelemetryRecord) (r : TelemetryRecord)
    (h : l.getLast? = some r) : r ∈ l := by
  induction l with
  | nil => simp at h
  | cons a t ih =>
    cases t with
    | nil =>
      simp at h
      subst h
      exact List.mem_singleton_self a
    | cons b t2 =>
      rw [List.getLast?_cons_cons] at h
      exact List.mem_cons_of_mem a (ih h)

lemma getLast?_max_of_sorted (l : List TelemetryRecord) (r : TelemetryRecord)
    (h : l.getLast? = some r)
    (hs : l.Pairwise (fun a b => a.timestamp ≤ b.timestamp)) :
    ∀ x ∈ l, x.timestamp ≤ r.timestamp := by
  induction l with
  | nil => simp at h
  | cons a t ih =>
    cases t with
    | nil =>
      simp at h
      subst h
      intro x hx
      rw [List.mem_singleton] at hx
      exact hx ▸ le_refl _
    | cons b t2 =>
      rw [List.getLast?_cons_cons] at h
      have hr : r ∈ b :: t2 := getLast?_mem_list _ _ h
      intro x hx
      rcases List.mem_cons.mp hx with rfl | hx2
      · exact (List.pairwise_cons.mp hs).1 r hr
      · exact ih h (List.pairwise_cons.mp hs).2 x hx2

def c8r1 : TelemetryRecord := ⟨.pyStr "A", 100, 10, 1, .pyStr "OK"⟩

def c8r2 : TelemetryRecord := ⟨.pyStr "A", 50, 20, 2, .pyStr "OK"⟩

/-- C8 counterexample: with the device's rows stored newest-first, iloc[-1]
picks the frame's last row (timestamp 50) and hands its telemetry (20, 2)
to get_prediction, although the in-window record with the maximum timestamp
is the one with timestamp 100 and telemetry (10, 1). -/
theorem selectedData_latest_cex :
    selectedData [c8r1, c8r2] (.pyStr "A") = some c8r2 ∧
    inferenceInput [c8r1, c8r2] (.pyStr "A") = some (20, 2) ∧
    c8r1 ∈ [c8r1, c8r2] ∧ c8r1.device_id = .pyStr "A" ∧
    c8r2.timestamp < c8r1.timestamp := by decide

/-- C8 amended: the telemetry handed to get_prediction comes from the last
in-window row of the device in frame (scan) order; that row carries the
maximum timestamp only when the device's rows appear in non-decreasing
timestamp order. -/
theorem selectedData_last_row :
    (∀ (df : List TelemetryRecord) (dev : PyVal) (r : TelemetryRecord),
      selectedData df dev = some r →
        r ∈ df ∧ r.device_id = dev ∧
        inferenceInput df dev = some (r.temperature, r.vibration)) ∧
    (∀ (df : List TelemetryRecord) (dev : PyVal) (r : TelemetryRecord),
      selectedData df dev = some r →
      (df.filter (fun x => x.device_id == dev)).Pairwise
        (fun a b => a.timestamp ≤ b.timestamp) →
      ∀ x ∈ df, x.device_id = dev → x.timestamp ≤ r.timestamp) := by
  constructor
  · intro df dev r h
    have hr : r ∈ df.filter (fun x => x.device_id == dev) := getLast?_mem_list _ _ h
    have hm := List.mem_filter.mp hr
    exact ⟨hm.1, by simpa using hm.2, by simp [inferenceInput, h]⟩
  · intro df dev r h hs x hx hdev
    have hxf : x ∈ df.filter (fun y => y.device_id == dev) :=
      List.mem_filter.mpr ⟨hx, by simp [hdev]⟩
    exact getLast?_max_of_sorted _ _ h hs x hxf

/-- C8 amended witness: on a frame sorted by ascending timestamp the chosen
row dominates the timestamps of the device's rows. -/
theorem selectedData_last_row_witness : c8r2.timestamp ≤ c8r1.timestamp :=
  selectedData_last_row.2 [c8r2, c8r1] (.pyStr "A") c8r1 (by decide) (by decide)
    c8r2 (by decide) (by decide)
